import Mathlib

/-!
Shallow embedding of the file src/apps/frontend/components/builder/forms/generic-list-form.tsx:
the GenericListForm component (newline-delimited list editor) and the
PersonalInfoForm component (field-by-field record editor with avatar upload).

Strings are modelled as lists of characters; the JavaScript `value.split('\n')` is
`List.splitOn` with separator `'\n'` and `items.join('\n')` is `List.intercalate ['\n']`,
which agree with the JavaScript semantics for a one-character separator.  Event handlers
are embedded in writer style: a handler returns the updated local state together with
the list of arguments it passes to the `onChange` callback, so the statement that the
callback is invoked exactly once with x becomes the statement that the call list equals
`[x]`.
-/

/-- A JavaScript string, modelled as its list of characters. -/
abbrev Str : Type := List Char

namespace GenericListForm

/-- The transformation inside `handleChange`: `value.split('\n')`. -/
def fromText (value : Str) : List Str :=
  value.splitOn '\n'

/-- The join used to derive the textarea value: `items.join('\n')`. -/
def joinNl (items : List Str) : Str :=
  List.intercalate ['\n'] items

/-- Line 35: `const textValue = items?.join('\n') || ''`.  Here `none` models the items
prop being null or undefined (optional chaining yields undefined, and `undefined || ''`
is `''`); for a present array the `|| ''` fallback replaces a falsy (empty) join result
by the empty string, which on strings is the identity. -/
def textValue (items : Option (List Str)) : Str :=
  match items with
  | none => []
  | some l => if joinNl l = [] then [] else joinNl l

/-- The map `toText`, as the specification names the derivation applied to a present
items array. -/
def toText (items : List Str) : Str :=
  textValue (some items)

/-- The handler `handleChange = (value) => { onChange(value.split('\n')); }`, embedded
as the list of `onChange` invocations it performs (in order). -/
def handleChange (value : Str) : List (List Str) :=
  [value.splitOn '\n']

end GenericListForm

namespace PersonalInfoForm

/-- The named fields of the PersonalInfo record edited by the form. -/
inductive Field where
  | name
  | title
  | email
  | phone
  | location
  | gender
  | age
  | website
  | linkedin
  | github
  | avatar
deriving DecidableEq, Repr

/-- The PersonalInfo record: a flat mapping of named optional text fields.  Each field
is `Option Str` because the form reads them with a `data.field || ''` fallback and the
avatar read-error path can store a null value. -/
structure PersonalInfo where
  name : Option Str
  title : Option Str
  email : Option Str
  phone : Option Str
  location : Option Str
  gender : Option Str
  age : Option Str
  website : Option Str
  linkedin : Option Str
  github : Option Str
  avatar : Option Str
deriving DecidableEq, Repr

/-- Field projection of a PersonalInfo record. -/
def PersonalInfo.get (r : PersonalInfo) : Field → Option Str
  | .name => r.name
  | .title => r.title
  | .email => r.email
  | .phone => r.phone
  | .location => r.location
  | .gender => r.gender
  | .age => r.age
  | .website => r.website
  | .linkedin => r.linkedin
  | .github => r.github
  | .avatar => r.avatar

/-- The handler `handleChange = (field, value) => { onChange({ ...data, [field]: value }); }`:
builds a new record equal to `data` except the one named field, and returns the record
handed to `onChange`.  The TypeScript parameter type is string, but the avatar read-error
path passes the null `reader.result` through an `as string` cast, so the value is
modelled as `Option Str` (a present string is `some v`). -/
def handleChange (data : PersonalInfo) (field : Field) (value : Option Str) : PersonalInfo :=
  match field with
  | .name => { data with name := value }
  | .title => { data with title := value }
  | .email => { data with email := value }
  | .phone => { data with phone := value }
  | .location => { data with location := value }
  | .gender => { data with gender := value }
  | .age => { data with age := value }
  | .website => { data with website := value }
  | .linkedin => { data with linkedin := value }
  | .github => { data with github := value }
  | .avatar => { data with avatar := value }

/-- Local UI state of the component: the `avatarPreview` value from `useState` and the
value of the hidden file input reached through `fileInputRef`. -/
structure AvatarState where
  avatarPreview : Option Str
  fileInputValue : Str
deriving DecidableEq, Repr

/-- The handler `handleAvatarUpload`.  The argument `file` is the selection event
outcome: `none` models `e.target.files?.[0]` being absent (the `if (file)` guard fails,
nothing happens); `some result` models a selected file whose `readAsDataURL` read has
completed, where `result` is `reader.result` at the loadend event.  Per the FileReader
API the loadend event fires after the read completes or fails, and `reader.result` is
null on failure, so `result` is `some s` for a successful read producing the data URI
`s`, and `none` for a failed read.  The handler then runs `setAvatarPreview(base64)` and
`handleChange('avatar', base64)` with `base64 = reader.result as string`.  Returns the
new local state and the list of records passed to `onChange`. -/
def handleAvatarUpload (data : PersonalInfo) (st : AvatarState) (file : Option (Option Str)) :
    AvatarState × List PersonalInfo :=
  match file with
  | none => (st, [])
  | some result => ({ st with avatarPreview := result }, [handleChange data .avatar result])

/-- The handler `handleRemoveAvatar`: `setAvatarPreview(null)`, `handleChange('avatar', '')`,
and `fileInputRef.current.value = ''`.  Returns the new local state and the list of
records passed to `onChange`. -/
def handleRemoveAvatar (data : PersonalInfo) (st : AvatarState) :
    AvatarState × List PersonalInfo :=
  ({ avatarPreview := none, fileInputValue := [] }, [handleChange data .avatar (some [])])

/-- A concrete record used to instantiate universally quantified theorems. -/
def sampleInfo : PersonalInfo :=
  { name := some ['n'], title := some ['t'], email := some ['e'], phone := some ['p'],
    location := some ['l'], gender := some ['g'], age := some ['3'], website := some ['w'],
    linkedin := some ['i'], github := some ['h'], avatar := some ['x'] }

/-- A concrete local state used to instantiate universally quantified theorems. -/
def sampleState : AvatarState :=
  { avatarPreview := some ['x'], fileInputValue := ['f'] }

end PersonalInfoForm

/-- Frame lemma for `handleChange`: every field other than the edited one is preserved. -/
lemma PersonalInfoForm.handleChange_frame (data : PersonalInfoForm.PersonalInfo)
    (F G : PersonalInfoForm.Field) (v : Option Str) (hG : G ≠ F) :
    (PersonalInfoForm.handleChange data F v).get G = data.get G := by
  cases F <;> cases G <;> first
    | rfl
    | exact absurd rfl hG

/-- If joining a nonempty list of lines with a newline yields the empty string, the list
was the single empty line. -/
lemma GenericListForm.joinNl_eq_nil {S : List Str} (h : GenericListForm.joinNl S = [])
    (hne : S ≠ []) : S = [[]] := by
  match S with
  | [] => exact absurd rfl hne
  | [a] =>
    have ha : a = [] := by
      simpa [GenericListForm.joinNl, List.intercalate] using h
    rw [ha]
  | a :: b :: t =>
    exfalso
    simp only [GenericListForm.joinNl, List.intercalate, List.intersperse_cons_cons] at h
    simp at h

/-- C1: the round trip `fromText (toText S) = S` fails at the empty sequence `S = []`
(whose elements vacuously contain no line break): the derived text is the empty string
and splitting it yields the one-element sequence of the empty string, not `[]`. -/
theorem c1_counterexample :
    (∀ s ∈ ([] : List Str), '\n' ∉ s) ∧
      GenericListForm.fromText (GenericListForm.toText []) ≠ [] := by
  decide

/-- C1 (amended): for every nonempty ordered sequence of strings `S` in which no element
contains a line-break character, `fromText (toText S) = S`. -/
theorem c1_roundtrip (S : List Str) (hne : S ≠ []) (hnl : ∀ s ∈ S, '\n' ∉ s) :
    GenericListForm.fromText (GenericListForm.toText S) = S := by
  simp only [GenericListForm.toText, GenericListForm.textValue]
  by_cases h : GenericListForm.joinNl S = []
  · rw [if_pos h, GenericListForm.joinNl_eq_nil h hne]
    decide
  · rw [if_neg h]
    show (List.intercalate ['\n'] S).splitOn '\n' = S
    exact List.splitOn_intercalate S '\n' hnl hne

/-- Witness for `c1_roundtrip` at the sequence of the three strings P, G, R. -/
theorem c1_roundtrip_witness :
    GenericListForm.fromText (GenericListForm.toText [['P'], ['G'], ['R']]) =
      [['P'], ['G'], ['R']] :=
  c1_roundtrip [['P'], ['G'], ['R']] (by decide) (by decide)

/-- C2: editing field `F` of record `R` with value `V` hands the callback a record whose
`F` field is `V` and whose every other field agrees with `R`; `R` itself is a pure value
and is never mutated. -/
theorem c2_field_edit (R : PersonalInfoForm.PersonalInfo) (F : PersonalInfoForm.Field)
    (V : Str) :
    (PersonalInfoForm.handleChange R F (some V)).get F = some V ∧
      ∀ G, G ≠ F → (PersonalInfoForm.handleChange R F (some V)).get G = R.get G := by
  constructor
  · cases F <;> rfl
  · intro G hG
    exact PersonalInfoForm.handleChange_frame R F G (some V) hG

/-- Witness for `c2_field_edit`: editing the name field on the sample record sets it and
preserves the email field. -/
theorem c2_field_edit_witness :
    (PersonalInfoForm.handleChange PersonalInfoForm.sampleInfo .name (some ['A'])).get
        .name = some ['A'] ∧
      (PersonalInfoForm.handleChange PersonalInfoForm.sampleInfo .name (some ['A'])).get
        .email = PersonalInfoForm.sampleInfo.get .email :=
  ⟨(c2_field_edit PersonalInfoForm.sampleInfo .name ['A']).1,
    (c2_field_edit PersonalInfoForm.sampleInfo .name ['A']).2 .email (by decide)⟩

/-- C3: the claim that a failed file read causes no state transition is false on the
code: the handler listens on loadend, which also fires after a failed read, with a null
result, so at the sample state a failed read changes the preview and invokes the
callback with a record that differs from the current one. -/
theorem c3_counterexample :
    ¬ ((PersonalInfoForm.handleAvatarUpload PersonalInfoForm.sampleInfo
          PersonalInfoForm.sampleState (some none)).1.avatarPreview =
        PersonalInfoForm.sampleState.avatarPreview ∧
      ∀ r ∈ (PersonalInfoForm.handleAvatarUpload PersonalInfoForm.sampleInfo
          PersonalInfoForm.sampleState (some none)).2, r = PersonalInfoForm.sampleInfo) := by
  decide

/-- C3 (amended): if no file is selected, no state transition occurs and the callback is
not invoked; if the read fails, the loadend handler still runs with a null result, so
the preview is set to null and the callback is invoked exactly once with a record whose
avatar field is null and whose every other field is unchanged. -/
theorem c3_failure_semantics (data : PersonalInfoForm.PersonalInfo)
    (st : PersonalInfoForm.AvatarState) :
    PersonalInfoForm.handleAvatarUpload data st none = (st, []) ∧
      (PersonalInfoForm.handleAvatarUpload data st (some none)).1.avatarPreview = none ∧
      (PersonalInfoForm.handleAvatarUpload data st (some none)).2.length = 1 ∧
      ∀ r ∈ (PersonalInfoForm.handleAvatarUpload data st (some none)).2,
        r.get .avatar = none ∧
          ∀ G, G ≠ PersonalInfoForm.Field.avatar → r.get G = data.get G := by
  refine ⟨rfl, rfl, rfl, ?_⟩
  intro r hr
  simp only [PersonalInfoForm.handleAvatarUpload, List.mem_singleton] at hr
  subst hr
  exact ⟨rfl, fun G hG => PersonalInfoForm.handleChange_frame data .avatar G none hG⟩

/-- Witness for `c3_failure_semantics`: at the sample record and state, the record
handed to the callback after a failed read keeps the email field. -/
theorem c3_failure_semantics_witness :
    (PersonalInfoForm.handleChange PersonalInfoForm.sampleInfo .avatar none).get .email =
      PersonalInfoForm.sampleInfo.get .email :=
  ((c3_failure_semantics PersonalInfoForm.sampleInfo PersonalInfoForm.sampleState).2.2.2
      (PersonalInfoForm.handleChange PersonalInfoForm.sampleInfo .avatar none)
      (by decide)).2 .email (by decide)

/-- C4: the empty-case asymmetry — `toText []` is the empty string while applying
`fromText` to the empty string gives the one-element sequence of the empty string. -/
theorem c4_empty_asymmetry :
    GenericListForm.toText [] = [] ∧ GenericListForm.fromText [] = [[]] := by
  decide

/-- C5: when a read completes successfully with data URI `s`, the new preview and the
avatar field of the single record handed to the callback are the same string `s`. -/
theorem c5_success_sync (data : PersonalInfoForm.PersonalInfo)
    (st : PersonalInfoForm.AvatarState) (s : Str) :
    (PersonalInfoForm.handleAvatarUpload data st (some (some s))).1.avatarPreview = some s ∧
      (PersonalInfoForm.handleAvatarUpload data st (some (some s))).2 =
        [PersonalInfoForm.handleChange data .avatar (some s)] ∧
      (PersonalInfoForm.handleChange data .avatar (some s)).get .avatar = some s :=
  ⟨rfl, rfl, rfl⟩

/-- C6: clearing the avatar sets the preview to null, resets the value of the file input
to the empty string, and invokes the callback exactly once with a record whose avatar
field is the empty string and whose every other field is unchanged. -/
theorem c6_remove_avatar (data : PersonalInfoForm.PersonalInfo)
    (st : PersonalInfoForm.AvatarState) :
    (PersonalInfoForm.handleRemoveAvatar data st).1.avatarPreview = none ∧
      (PersonalInfoForm.handleRemoveAvatar data st).1.fileInputValue = [] ∧
      (PersonalInfoForm.handleRemoveAvatar data st).2 =
        [PersonalInfoForm.handleChange data .avatar (some [])] ∧
      (PersonalInfoForm.handleChange data .avatar (some [])).get .avatar = some [] ∧
      ∀ G, G ≠ PersonalInfoForm.Field.avatar →
        (PersonalInfoForm.handleChange data .avatar (some [])).get G = data.get G := by
  refine ⟨rfl, rfl, rfl, rfl, ?_⟩
  intro G hG
  exact PersonalInfoForm.handleChange_frame data .avatar G (some []) hG

/-- Witness for `c6_remove_avatar` at the sample record and state. -/
theorem c6_remove_avatar_witness :
    (PersonalInfoForm.handleRemoveAvatar PersonalInfoForm.sampleInfo
        PersonalInfoForm.sampleState).1.avatarPreview = none ∧
      (PersonalInfoForm.handleChange PersonalInfoForm.sampleInfo .avatar (some [])).get
        .name = PersonalInfoForm.sampleInfo.get .name :=
  ⟨(c6_remove_avatar PersonalInfoForm.sampleInfo PersonalInfoForm.sampleState).1,
    (c6_remove_avatar PersonalInfoForm.sampleInfo PersonalInfoForm.sampleState).2.2.2.2
      .name (by decide)⟩

/-- C7: for every textarea value, the change handler invokes the callback exactly once,
with the full split of the value on line breaks, unfiltered (rejoining the argument
recovers the value exactly). -/
theorem c7_single_sync_call (value : Str) :
    (GenericListForm.handleChange value).length = 1 ∧
      ∀ items ∈ GenericListForm.handleChange value,
        items = GenericListForm.fromText value ∧
          GenericListForm.joinNl items = value := by
  refine ⟨rfl, ?_⟩
  intro items hit
  simp only [GenericListForm.handleChange, List.mem_singleton] at hit
  subst hit
  refine ⟨rfl, ?_⟩
  show List.intercalate ['\n'] (value.splitOn '\n') = value
  exact List.intercalate_splitOn value '\n'

/-- Witness for `c7_single_sync_call` at the two-line value a, b. -/
theorem c7_single_sync_call_witness :
    (GenericListForm.handleChange ['a', '\n', 'b']).length = 1 ∧
      GenericListForm.joinNl (GenericListForm.fromText ['a', '\n', 'b']) =
        ['a', '\n', 'b'] :=
  ⟨(c7_single_sync_call ['a', '\n', 'b']).1,
    ((c7_single_sync_call ['a', '\n', 'b']).2
      (GenericListForm.fromText ['a', '\n', 'b']) (by decide)).2⟩

/-- C8: splitting any text on line breaks produces at least one segment. -/
theorem c8_fromText_nonempty (t : Str) : 0 < (GenericListForm.fromText t).length := by
  have h : GenericListForm.fromText t ≠ [] := by
    show t.splitOnP (· == '\n') ≠ []
    exact List.splitOnP_ne_nil _ t
  exact List.length_pos.mpr h

/-- C9: re-deriving the textarea text from the split of any text `t` (with the
empty-string fallback applied) reproduces `t` exactly. -/
theorem c9_inverse_roundtrip (t : Str) :
    GenericListForm.toText (GenericListForm.fromText t) = t := by
  simp only [GenericListForm.toText, GenericListForm.textValue, GenericListForm.fromText,
    GenericListForm.joinNl]
  rw [List.intercalate_splitOn t '\n']
  split_ifs with h1
  · exact h1.symm
  · rfl

/-- C10: when the items prop is null or undefined, the derived textarea value is the
empty string (the derivation is total over absent input). -/
theorem c10_textValue_total : GenericListForm.textValue none = [] := rfl
